import Mathlib

/-!
Verification of the x-scraper core: failure classification, response
normalization (media extraction, date parsing, thread detection) and the
retry/refresh behaviour of the per-job scrape pipeline, as a shallow
embedding of `src/x_scraper/bird_client.py`, `src/x_scraper/scraper.py`
and `src/x_scraper/utils.py`.
-/

namespace XScraper

/-! ### String helpers (Python `str` operations over `List Char`) -/

/-- Python `needle in hay` starts by checking needle against the front. -/
def startsWithChars : List Char → List Char → Bool
  | [], _ => true
  | _ :: _, [] => false
  | a :: as, b :: bs => a == b && startsWithChars as bs

/-- Contiguous-substring test on character lists (Python `needle in hay`). -/
def hasSubChars (needle : List Char) : List Char → Bool
  | [] => startsWithChars needle []
  | b :: bs => startsWithChars needle (b :: bs) || hasSubChars needle bs

/-- Python `needle in hay` for strings: contiguous substring containment. -/
def strHasSub (hay needle : String) : Bool := hasSubChars needle.data hay.data

/-- Python `s.lower()`; modelled with `Char.toLower` (ASCII case folding,
which covers all diagnostic text the tool emits). -/
def lowerStr (s : String) : String := ⟨s.data.map Char.toLower⟩

/-- Replace every non-overlapping occurrence of `pat`, leftmost first, as
Python `str.replace` does; each step consumes at least one character, so
`l.length` steps of fuel suffice. `pat` is nonempty at both call sites
(`"twitter.com"`, `"Z"`). -/
def replaceCharsFuel (pat repl : List Char) : Nat → List Char → List Char
  | 0, l => l
  | _ + 1, [] => []
  | fuel + 1, c :: cs =>
    if startsWithChars pat (c :: cs) then
      repl ++ replaceCharsFuel pat repl fuel (List.drop (pat.length - 1) cs)
    else
      c :: replaceCharsFuel pat repl fuel cs

def replaceChars (pat repl l : List Char) : List Char :=
  replaceCharsFuel pat repl l.length l

/-- Python `s.replace(pat, repl)`. -/
def strReplace (s pat repl : String) : String :=
  ⟨replaceChars pat.data repl.data s.data⟩

/-- Python truthiness-aware `a or b` on strings: `""` is falsy. -/
def pyOrStr (a b : String) : String := if a = "" then b else a

/-- Python `a or b` where `a` is `str | None` (from `dict.get`) and the
fallback may itself be `None`: both `None` and `""` are falsy. -/
def pyOrOpt (a b : Option String) : Option String :=
  match a with
  | some s => if s = "" then b else some s
  | none => b

/-! ### Failure classification (`bird_client.BirdClient._run_bird`) -/

/-- The closed failure taxonomy of the spec (§3 FailureKind). -/
inductive FailureKind where
  | ToolMissing
  | AuthExpired
  | RateLimited
  | NotFoundOrStale
  | Timeout
  | MalformedOutput
  | Unclassified
deriving DecidableEq, Repr

/-- Substring classification of a nonzero-exit stderr, translated from the
if-chain in `BirdClient._run_bird` (bird_client.py lines 165-188):
401/Unauthorized/auth → auth failure; 429/rate → rate limit; 404 → not
found / stale query ids; otherwise unclassified. -/
def classifyStderr (stderr : String) : FailureKind :=
  if strHasSub stderr "401" || strHasSub stderr "Unauthorized"
      || strHasSub (lowerStr stderr) "auth" then
    .AuthExpired
  else if strHasSub stderr "429" || strHasSub (lowerStr stderr) "rate" then
    .RateLimited
  else if strHasSub stderr "404" then
    .NotFoundOrStale
  else
    .Unclassified

/-! ### Datetime model (`datetime.datetime` values as used by the code) -/

/-- A `datetime.datetime` value: naive when `tzOffsetSeconds` is `none`,
aware with a fixed UTC offset otherwise. -/
structure PyDateTime where
  year : Nat
  month : Nat
  day : Nat
  hour : Nat
  minute : Nat
  second : Nat
  microsecond : Nat
  tzOffsetSeconds : Option Int
deriving DecidableEq, Repr

def isLeapYear (y : Nat) : Bool :=
  (y % 4 == 0 && y % 100 != 0) || y % 400 == 0

def daysInMonth (y m : Nat) : Nat :=
  if m = 2 then (if isLeapYear y then 29 else 28)
  else if m = 4 ∨ m = 6 ∨ m = 9 ∨ m = 11 then 30
  else 31

/-- The constraints the `datetime` constructor enforces (it raises
`ValueError` outside them, which the parsing fallbacks catch). -/
def validDateTime (d : PyDateTime) : Bool :=
  1 ≤ d.year && d.year ≤ 9999 &&
  1 ≤ d.month && d.month ≤ 12 &&
  1 ≤ d.day && d.day ≤ daysInMonth d.year d.month &&
  d.hour ≤ 23 && d.minute ≤ 59 && d.second ≤ 59 &&
  d.microsecond ≤ 999999 &&
  (match d.tzOffsetSeconds with
   | none => true
   | some o => -86400 < o && o < 86400)

/-- Build a datetime, failing (as the `datetime` constructor does) when a
component is out of range. -/
def mkDateTime (y m d hh mi ss us : Nat) (off : Option Int) : Option PyDateTime :=
  let dt : PyDateTime := ⟨y, m, d, hh, mi, ss, us, off⟩
  if validDateTime dt then some dt else none

/-! ### `strptime` with format `"%a %b %d %H:%M:%S %z %Y"` -/

/-- Python regex `\s` whitespace (ASCII part). -/
def isPyWs (c : Char) : Bool :=
  c == ' ' || c == '\t' || c == '\n' || c == '\r' || c == '\x0b' || c == '\x0c'

def splitWsAux : List Char → List Char → List (List Char)
  | [], acc => if acc.isEmpty then [] else [acc.reverse]
  | c :: cs, acc =>
    if isPyWs c then
      if acc.isEmpty then splitWsAux cs [] else acc.reverse :: splitWsAux cs []
    else
      splitWsAux cs (c :: acc)

/-- Split on runs of whitespace; `strptime`'s compiled regex is anchored at
both ends, so leading or trailing whitespace fails the match. -/
def splitWsStrict (l : List Char) : Option (List (List Char)) :=
  match l, l.reverse with
  | c :: _, d :: _ =>
    if isPyWs c || isPyWs d then none else some (splitWsAux l [])
  | _, _ => none

def natOfDigits (l : List Char) : Option Nat :=
  if l ≠ [] ∧ l.all Char.isDigit then
    some (l.foldl (fun n c => n * 10 + (c.toNat - 48)) 0)
  else none

/-- Format token `%a`: abbreviated day name, matched case-insensitively and otherwise
ignored (`strptime` does not cross-check it against the date). -/
def dayNameOk (tok : List Char) : Bool :=
  let t := tok.map Char.toLower
  t == "mon".data || t == "tue".data || t == "wed".data || t == "thu".data ||
  t == "fri".data || t == "sat".data || t == "sun".data

/-- Format token `%b`: abbreviated month name, case-insensitive. -/
def monthFromAbbrev (tok : List Char) : Option Nat :=
  let t := tok.map Char.toLower
  if t == "jan".data then some 1
  else if t == "feb".data then some 2
  else if t == "mar".data then some 3
  else if t == "apr".data then some 4
  else if t == "may".data then some 5
  else if t == "jun".data then some 6
  else if t == "jul".data then some 7
  else if t == "aug".data then some 8
  else if t == "sep".data then some 9
  else if t == "oct".data then some 10
  else if t == "nov".data then some 11
  else if t == "dec".data then some 12
  else none

/-- Format token `%d`: one or two digits (range checked by the datetime constructor). -/
def parseDayTok (tok : List Char) : Option Nat :=
  if tok.length = 1 ∨ tok.length = 2 then natOfDigits tok else none

def splitOnChAux (sep : Char) : List Char → List Char → List (List Char)
  | [], acc => [acc.reverse]
  | c :: cs, acc =>
    if c == sep then acc.reverse :: splitOnChAux sep cs []
    else splitOnChAux sep cs (c :: acc)

def splitOnCh (sep : Char) (l : List Char) : List (List Char) :=
  splitOnChAux sep l []

/-- Format tokens `%H:%M:%S`: three colon-separated fields of one or two digits.
Out-of-range values fail in the datetime constructor, matching the overall
success/failure behaviour of `strptime` on this format. -/
def parseTimeTok (tok : List Char) : Option (Nat × Nat × Nat) :=
  match splitOnCh ':' tok with
  | [h, m, s] =>
    if (h.length = 1 ∨ h.length = 2) ∧ (m.length = 1 ∨ m.length = 2) ∧
        (s.length = 1 ∨ s.length = 2) then
      match natOfDigits h, natOfDigits m, natOfDigits s with
      | some hh, some mi, some ss => some (hh, mi, ss)
      | _, _, _ => none
    else none
  | _ => none

/-- Format token `%z`: `Z` or a signed `\d\d:?\d\d` with optional `:?\d\d` seconds,
converted to an offset in seconds (fractional offsets are not modelled;
they never occur in the tool's output). -/
def parseZOffsetTok (tok : List Char) : Option Int :=
  match tok with
  | ['Z'] => some 0
  | sgn :: rest =>
    if sgn == '+' || sgn == '-' then
      let hms : Option (Nat × Nat × Nat) :=
        match rest with
        | [h1, h2, m1, m2] =>
          match natOfDigits [h1, h2], natOfDigits [m1, m2] with
          | some h, some m => some (h, m, 0)
          | _, _ => none
        | [h1, h2, ':', m1, m2] =>
          match natOfDigits [h1, h2], natOfDigits [m1, m2] with
          | some h, some m => some (h, m, 0)
          | _, _ => none
        | [h1, h2, m1, m2, s1, s2] =>
          match natOfDigits [h1, h2], natOfDigits [m1, m2], natOfDigits [s1, s2] with
          | some h, some m, some s => some (h, m, s)
          | _, _, _ => none
        | [h1, h2, ':', m1, m2, ':', s1, s2] =>
          match natOfDigits [h1, h2], natOfDigits [m1, m2], natOfDigits [s1, s2] with
          | some h, some m, some s => some (h, m, s)
          | _, _, _ => none
        | _ => none
      hms.map fun (h, m, s) =>
        let total : Int := (h * 3600 + m * 60 + s : Nat)
        if sgn == '-' then -total else total
    else none
  | _ => none

/-- Format token `%Y`: exactly four digits. -/
def parseYearTok (tok : List Char) : Option Nat :=
  if tok.length = 4 then natOfDigits tok else none

/-- Models `datetime.strptime(s, "%a %b %d %H:%M:%S %z %Y")` (the standard
library call made by `utils.parse_twitter_date`), returning `none` where
Python raises `ValueError`. -/
def parseTwitterFormat (s : String) : Option PyDateTime :=
  match splitWsStrict s.data with
  | some [a, b, d, t, z, y] =>
    if dayNameOk a then
      match monthFromAbbrev b, parseDayTok d, parseTimeTok t,
          parseZOffsetTok z, parseYearTok y with
      | some m, some dd, some (hh, mi, ss), some off, some yy =>
        mkDateTime yy m dd hh mi ss 0 (some off)
      | _, _, _, _, _ => none
    else none
  | _ => none

/-! ### `datetime.fromisoformat` -/

def parseIsoDate : List Char → Option (Nat × Nat × Nat × List Char)
  | y1 :: y2 :: y3 :: y4 :: '-' :: m1 :: m2 :: '-' :: d1 :: d2 :: rest =>
    match natOfDigits [y1, y2, y3, y4], natOfDigits [m1, m2],
        natOfDigits [d1, d2] with
    | some y, some m, some d => some (y, m, d, rest)
    | _, _, _ => none
  | _ => none

/-- Fractional seconds: `.` then one to six digits, scaled to microseconds. -/
def parseIsoFrac : List Char → Option (Nat × List Char)
  | '.' :: rest =>
    let ds := rest.takeWhile Char.isDigit
    if 1 ≤ ds.length ∧ ds.length ≤ 6 then
      match natOfDigits ds with
      | some v => some (v * 10 ^ (6 - ds.length), rest.drop ds.length)
      | none => none
    else none
  | _ => none

/-- Time part `HH[:MM[:SS[.ffffff]]]`, returning the unconsumed remainder (the
offset part). -/
def parseIsoTime : List Char → Option (Nat × Nat × Nat × Nat × List Char)
  | h1 :: h2 :: rest =>
    match natOfDigits [h1, h2] with
    | none => none
    | some hh =>
      match rest with
      | ':' :: m1 :: m2 :: rest2 =>
        match natOfDigits [m1, m2] with
        | none => none
        | some mi =>
          match rest2 with
          | ':' :: s1 :: s2 :: rest3 =>
            match natOfDigits [s1, s2] with
            | none => none
            | some ss =>
              match parseIsoFrac rest3 with
              | some (us, rest4) => some (hh, mi, ss, us, rest4)
              | none => some (hh, mi, ss, 0, rest3)
          | _ => some (hh, mi, 0, 0, rest2)
      | _ => some (hh, 0, 0, 0, rest)
  | _ => none

/-- Offset tail `±HH:MM[:SS]`, in seconds; must consume the whole rest. -/
def parseIsoOffHMS : List Char → Option Int
  | [h1, h2, ':', m1, m2] =>
    match natOfDigits [h1, h2], natOfDigits [m1, m2] with
    | some h, some m => some ((h * 3600 + m * 60 : Nat) : Int)
    | _, _ => none
  | [h1, h2, ':', m1, m2, ':', s1, s2] =>
    match natOfDigits [h1, h2], natOfDigits [m1, m2], natOfDigits [s1, s2] with
    | some h, some m, some s => some ((h * 3600 + m * 60 + s : Nat) : Int)
    | _, _, _ => none
  | _ => none

def parseIsoOffset : List Char → Option (Option Int)
  | [] => some none
  | '+' :: rest => (parseIsoOffHMS rest).map some
  | '-' :: rest => (parseIsoOffHMS rest).map (fun o => some (-o))
  | _ => none

/-- Models `datetime.fromisoformat` (Python standard library, outside this
repository), modelled on the extended ISO-8601 calendar-date grammar
`YYYY-MM-DD[<sep>HH[:MM[:SS[.ffffff]]][±HH:MM[:SS]]]` with any single
separator character — the shape `utils.parse_twitter_date` feeds it after
`replace("Z", "+00:00")`. Returns `none` where Python raises `ValueError`. -/
def fromIsoTail (y m d : Nat) : List Char → Option PyDateTime
  | [] => mkDateTime y m d 0 0 0 0 none
  | _sep :: timePart =>
    match parseIsoTime timePart with
    | none => none
    | some (hh, mi, ss, us, offPart) =>
      match parseIsoOffset offPart with
      | none => none
      | some off => mkDateTime y m d hh mi ss us off

def fromIsoFormat (s : String) : Option PyDateTime :=
  match parseIsoDate s.data with
  | none => none
  | some (y, m, d, rest) => fromIsoTail y m d rest

/-- Models `utils.parse_twitter_date`: try the tool's native format, then ISO
with every `"Z"` replaced by `"+00:00"`, then fall back to the ambient
wall clock (`datetime.now()`), which is passed in explicitly as `now`. -/
def parse_twitter_date (now : PyDateTime) (date_str : String) : PyDateTime :=
  match parseTwitterFormat date_str with
  | some dt => dt
  | none =>
    match fromIsoFormat (strReplace date_str "Z" "+00:00") with
    | some dt => dt
    | none => now

/-! ### Raw tool response and normalized record
(`models.py`, `scraper.parse_bird_response`, `bird_client.extract_*`) -/

/-- The nested `author` object of the raw JSON (fields the code reads). -/
structure RawAuthor where
  username : Option String
  handle : Option String
  screen_name : Option String
  name : Option String
  displayName : Option String
deriving DecidableEq, Repr

/-- One entry of the raw `media` list (fields the code reads). -/
structure RawMedia where
  type : Option String
  url : Option String
  videoUrl : Option String
deriving DecidableEq, Repr

/-- The nested `legacy` object (only `conversation_id_str` is read). -/
structure RawLegacy where
  conversation_id_str : Option String
deriving DecidableEq, Repr

/-- The raw JSON object printed by the Bird CLI, restricted to the keys
the normalization layer reads; `none` models an absent key (or JSON
`null`, which `dict.get` reports identically). -/
structure RawData where
  id : Option String
  text : Option String
  full_text : Option String
  createdAt : Option String
  created_at : Option String
  author : Option RawAuthor
  media : Option (List RawMedia)
  conversationId : Option String
  legacy : Option RawLegacy
deriving DecidableEq, Repr

def emptyAuthor : RawAuthor := ⟨none, none, none, none, none⟩

/-- Python `s.endswith(suf)`. -/
def strEndsWith (s suf : String) : Bool :=
  startsWithChars suf.data.reverse s.data.reverse

/-- Models `utils.normalize_x_url`. -/
def normalize_x_url (url : String) : String :=
  strReplace url "twitter.com" "x.com"

/-- The per-URL body of the `photo` branch of `extract_image_urls`:
`base_url = url.split("?")[0]`; when the base does not already end in
`:orig`, the stripped base gets the canonical original-size query,
otherwise the URL is kept verbatim. -/
def canonImageUrl (u : String) : String :=
  let base : String := ⟨(splitOnCh '?' u.data).headD []⟩
  if strEndsWith base ":orig" then u else base ++ "?format=jpg&name=orig"

def extractImagesGo : List RawMedia → List String
  | [] => []
  | m :: ms =>
    if m.type == some "photo" then
      let url := m.url.getD ""
      if url ≠ "" ∧ strHasSub url "twimg.com" then
        canonImageUrl url :: extractImagesGo ms
      else extractImagesGo ms
    else extractImagesGo ms

/-- Models `bird_client.extract_image_urls`. -/
def extract_image_urls (raw_data : RawData) : List String :=
  extractImagesGo (raw_data.media.getD [])

/-- The keep-condition of the photo pass of `extract_image_urls`: type
`photo`, a nonempty URL, and the image host marker in the URL. -/
def imageKeep (m : RawMedia) : Bool :=
  m.type == some "photo" && m.url.getD "" != "" &&
    strHasSub (m.url.getD "") "twimg.com"

def extractVideosGo : List RawMedia → List String
  | [] => []
  | m :: ms =>
    if m.type == some "video" || m.type == some "animated_gif" then
      let video_url := m.videoUrl.getD ""
      if video_url ≠ "" then video_url :: extractVideosGo ms
      else extractVideosGo ms
    else extractVideosGo ms

/-- Models `bird_client.extract_video_urls`. -/
def extract_video_urls (raw_data : RawData) : List String :=
  extractVideosGo (raw_data.media.getD [])

/-- Field `TweetData.created_at` has Python type `datetime | str`. -/
inductive CreatedAt where
  | dt (d : PyDateTime)
  | rawStr (s : String)
deriving DecidableEq, Repr

/-- Structure `models.TweetData`, the canonical record (fields the code sets). -/
structure TweetData where
  id : String
  url : String
  text : String
  created_at : CreatedAt
  author_handle : String
  author_name : String
  images : List String
  videos : List String
  is_thread : Bool
  conversation_id : Option String
deriving DecidableEq, Repr

/-- Value `created_at_raw` in `parse_bird_response`:
`raw_data.get("createdAt", "") or raw_data.get("created_at", "")`. -/
def createdAtRawOf (raw_data : RawData) : String :=
  pyOrStr (raw_data.createdAt.getD "") (raw_data.created_at.getD "")

/-- The `created_at` field computation of `parse_bird_response`: parse a
nonempty raw date, keep an empty one as the raw string. -/
def createdAtOf (now : PyDateTime) (raw_data : RawData) : CreatedAt :=
  if createdAtRawOf raw_data ≠ "" then
    .dt (parse_twitter_date now (createdAtRawOf raw_data))
  else .rawStr (createdAtRawOf raw_data)

/-- Models `scraper.parse_bird_response`; `now` is the ambient wall clock that
`utils.parse_twitter_date` falls back to. -/
def parse_bird_response (now : PyDateTime) (raw_data : RawData) (url : String) :
    TweetData :=
  let author := raw_data.author.getD emptyAuthor
  let author_handle :=
    pyOrStr (author.username.getD "")
      (pyOrStr (author.handle.getD "") (author.screen_name.getD ""))
  let author_name := pyOrStr (author.name.getD "") (author.displayName.getD "")
  let created_at : CreatedAt := createdAtOf now raw_data
  let images := extract_image_urls raw_data
  let videos := extract_video_urls raw_data
  let conversation_id :=
    pyOrOpt raw_data.conversationId (raw_data.legacy.bind (·.conversation_id_str))
  let tweet_id := raw_data.id.getD ""
  let is_thread : Bool :=
    match conversation_id with
    | none => false
    | some c => c != tweet_id
  { id := tweet_id
    url := url
    text := pyOrStr (raw_data.text.getD "") (raw_data.full_text.getD "")
    created_at := created_at
    author_handle := author_handle
    author_name := author_name
    images := images
    videos := videos
    is_thread := is_thread
    conversation_id := conversation_id }

/-! ### Bird CLI invocation and exception dispatch
(`bird_client.BirdClient._run_bird`, `refresh_query_ids`;
`scraper.scrape_tweets`) -/

/-- Python exception class of a raised error, as far as the `except`
clauses in `scrape_tweets` distinguish them: `BirdRateLimitError` is
caught first; `BirdNotFoundError`, `BirdAuthError` and plain `BirdError`
are all caught by `except BirdError`. -/
inductive BirdExcClass where
  | birdNotFoundErr
  | authErr
  | rateLimitErr
  | plainErr
deriving DecidableEq, Repr

/-- A raised exception: its class and its `str(e)` message (what the
`"404" in str(e) or "query" in str(e).lower()` dispatch inspects). -/
structure BirdExc where
  cls : BirdExcClass
  message : String
deriving DecidableEq, Repr

/-- Message of `BirdNotFoundError()`. -/
def birdNotFoundMsg : String :=
  "Bird CLI not found. Install it with: bun install -g @nicepkg/bird\nOr see: https://github.com/steipete/bird"

/-- Message of the `BirdAuthError` raised by `_run_bird`. -/
def authExpiredMsg : String :=
  "Authentication failed. Re-extract cookies from your browser."

/-- Message of the `BirdRateLimitError` raised by `_run_bird`. -/
def rateLimitedMsg : String :=
  "Rate limit exceeded. Wait before retrying."

/-- Message of the `BirdError` raised by `_run_bird` on a 404 stderr. -/
def notFoundStaleMsg : String :=
  "Tweet not found or query IDs outdated. Try: bird query-ids --fresh"

/-- Default `BirdClient` command timeout in seconds. -/
def birdTimeout : Nat := 60

/-- The exception `_run_bird` raises for each nonzero-exit classification
(`stderrS` is the stripped stderr, interpolated into the unclassified
message). -/
def birdExcOfKind (k : FailureKind) (stderrS : String) : BirdExc :=
  match k with
  | .AuthExpired => ⟨.authErr, authExpiredMsg⟩
  | .RateLimited => ⟨.rateLimitErr, rateLimitedMsg⟩
  | .NotFoundOrStale => ⟨.plainErr, notFoundStaleMsg⟩
  | _ => ⟨.plainErr, s!"Bird CLI failed: {stderrS}"⟩

/-- Outcome of the `subprocess.run` call inside `_run_bird`, as the code
observes it: a completed process (exit code, stdout as parsed by the
standard-library `json.loads` — `none` with the decode-error text when
stdout is not a JSON object — and stderr text), a `TimeoutExpired`, or a
`FileNotFoundError`. -/
inductive InvokeResult where
  | completed (returncode : Int) (stdoutJson : Option RawData)
      (stdoutDecodeError : String) (stderr : String)
  | timedOut
  | fileNotFound
deriving DecidableEq, Repr

/-- Python `s.strip()` (ASCII whitespace). -/
def pyStrip (s : String) : String :=
  ⟨((s.data.dropWhile isPyWs).reverse.dropWhile isPyWs).reverse⟩

/-- Models `BirdClient._run_bird`: timeout and missing binary become exceptions;
a nonzero exit raises the exception selected by the stderr substring
rules (`classifyStderr`); a zero exit returns parsed stdout or raises on
a JSON decode failure. -/
def run_bird (inv : InvokeResult) : Except BirdExc RawData :=
  match inv with
  | .timedOut =>
    .error ⟨.plainErr, s!"Bird command timed out after {birdTimeout}s"⟩
  | .fileNotFound => .error ⟨.birdNotFoundErr, birdNotFoundMsg⟩
  | .completed returncode stdoutJson stdoutDecodeError stderr =>
    if returncode ≠ 0 then
      .error (birdExcOfKind (classifyStderr (pyStrip stderr)) (pyStrip stderr))
    else
      match stdoutJson with
      | some raw => .ok raw
      | none =>
        .error ⟨.plainErr, s!"Failed to parse Bird output as JSON: {stdoutDecodeError}"⟩

/-- Outcome of the `subprocess.run` call inside `refresh_query_ids`. -/
inductive RefreshInvoke where
  | completed (returncode : Int)
  | timedOut
  | fileNotFound
deriving DecidableEq, Repr

/-- Models `BirdClient.refresh_query_ids`: a completed run is ignored whatever
its exit code, a `TimeoutExpired` is logged and swallowed, but a
`FileNotFoundError` re-raises `BirdNotFoundError`. -/
def refresh_query_ids (inv : RefreshInvoke) : Except BirdExc Unit :=
  match inv with
  | .completed _ => .ok ()
  | .timedOut => .ok ()
  | .fileNotFound => .error ⟨.birdNotFoundErr, birdNotFoundMsg⟩

/-- Structure `models.ScraperResult` (the dict `scrape_tweets` returns). -/
structure ScraperResult where
  success : Bool
  url : String
  data : Option TweetData
  error : Option String
deriving DecidableEq, Repr

/-- The job input dict: `data.get("url", "")` reads this field. -/
structure JobInput where
  url : Option String
deriving DecidableEq, Repr

/-- The environment one attempt of the `scrape_tweets` body consumes:
whether `shutil.which("bird")` finds the binary at `BirdClient`
construction, the `bird read` invocation outcome, the outcome of a
potential `bird query-ids --fresh` refresh, and the wall clock used by
date normalization. -/
structure AttemptWorld where
  birdOnPath : Bool
  readInv : InvokeResult
  refreshInv : RefreshInvoke
  now : PyDateTime
deriving DecidableEq, Repr

/-- What one call of the `scrape_tweets` body does: return a result dict,
or let an exception escape to the botasaurus decorator. -/
inductive AttemptOutcome where
  | result (r : ScraperResult)
  | raised (e : BirdExc)
deriving DecidableEq, Repr

/-- One attempt together with what it touched: whether the
`BirdClient(...)` constructor call was reached, and how many
`subprocess.run` calls were made. -/
structure AttemptTrace where
  outcome : AttemptOutcome
  clientBuilt : Bool
  subprocessCalls : Nat
deriving DecidableEq, Repr

/-- The body of `scraper.scrape_tweets` for one attempt: the empty-URL
early return, client construction, `read_tweet`, and the `except`
dispatch (re-raise on rate limit; refresh then re-raise when the message
contains `"404"` or case-insensitive `"query"`; otherwise a failure
result). -/
def scrapeAttempt (data : JobInput) (w : AttemptWorld) : AttemptTrace :=
  let url0 := data.url.getD ""
  if url0 = "" then
    ⟨.result ⟨false, "", none, some "No URL provided"⟩, false, 0⟩
  else
    let url := normalize_x_url url0
    if ¬ w.birdOnPath then
      ⟨.raised ⟨.birdNotFoundErr, birdNotFoundMsg⟩, true, 0⟩
    else
      match run_bird w.readInv with
      | .ok raw =>
        ⟨.result ⟨true, url, some (parse_bird_response w.now raw url), none⟩,
          true, 1⟩
      | .error e =>
        match e.cls with
        | .rateLimitErr => ⟨.raised e, true, 1⟩
        | _ =>
          if strHasSub e.message "404" || strHasSub (lowerStr e.message) "query" then
            match refresh_query_ids w.refreshInv with
            | .ok _ => ⟨.raised e, true, 2⟩
            | .error e2 => ⟨.raised e2, true, 2⟩
          else
            ⟨.result ⟨false, url, none, some e.message⟩, true, 1⟩

/-! ### Per-job retry loop and batch assembly (modelled from the spec:
the concurrency, retry and result-collection machinery around
`scrape_tweets` is the external botasaurus `@task` decorator, which is
not part of this repository) -/

/-- A finished job: its result dict and the number of attempts consumed. -/
structure JobResult where
  result : ScraperResult
  attempts : Nat
deriving DecidableEq, Repr

/-- Modelled from the spec: the retry loop provided by the external
botasaurus `@task(max_retry, retry_wait)` decorator (spec §4.4). An
attempt that returns a result terminates the job; an attempt that raises
is re-run after `retryDelay` while attempts consumed < `maxAttempts`,
and exhaustion fails the job with the last exception's message. `worlds`
supplies the environment of each successive attempt; `done` counts the
attempts already consumed. -/
def scrapeJobGo (data : JobInput) (maxAttempts : Nat) :
    List AttemptWorld → Nat → JobResult
  | [], done =>
    ⟨⟨false, normalize_x_url (data.url.getD ""), none,
      some "attempt budget exhausted"⟩, done⟩
  | w :: ws, done =>
    match (scrapeAttempt data w).outcome with
    | .result r => ⟨r, done + 1⟩
    | .raised e =>
      if done + 1 < maxAttempts then scrapeJobGo data maxAttempts ws (done + 1)
      else
        ⟨⟨false, normalize_x_url (data.url.getD ""), none, some e.message⟩,
          done + 1⟩

/-- One job run to completion under the spec's retry policy. -/
def scrapeJob (maxAttempts : Nat) (data : JobInput)
    (worlds : List AttemptWorld) : JobResult :=
  scrapeJobGo data maxAttempts worlds 0

/-- One completion event: job `i` finishes and writes its outcome into
slot `i` (an out-of-range index is a no-op). -/
def batchStep {α β : Type} (jobs : List α) (f : α → β)
    (slots : List (Option β)) (i : Nat) : List (Option β) :=
  match jobs[i]? with
  | some a => slots.set i (some (f a))
  | none => slots

/-- Modelled from the spec (§4.4 ordering guarantee, §5): the botasaurus
worker pool runs one job per input and writes each finished outcome into
the slot of its input index; `order` is the sequence in which concurrent
jobs complete. Slots start empty and a job's completion fills exactly its
own slot. -/
def runBatch {α β : Type} (jobs : List α) (f : α → β) (order : List Nat) :
    List (Option β) :=
  order.foldl (batchStep jobs f) (List.replicate jobs.length none)

/-- Models `scraper.scrape_urls`: wrap each URL as `{"url": url}` and run the
batch; each input carries the attempt environments of its own job, and
`order` is the completion order of the concurrent jobs. -/
def scrape_urls (maxAttempts : Nat)
    (inputs : List (String × List AttemptWorld)) (order : List Nat) :
    List (Option JobResult) :=
  runBatch inputs (fun p => scrapeJob maxAttempts ⟨some p.1⟩ p.2) order

/-! ### Concrete fixtures for witnesses (mirroring `tests/conftest.py`) -/

def exNow : PyDateTime := ⟨2026, 2, 1, 12, 0, 0, 0, none⟩

def exNow2 : PyDateTime := ⟨2026, 2, 1, 12, 0, 1, 0, none⟩

/-- Media list of the `sample_bird_response` fixture: two photos on the
image host and one video. -/
def sampleMedia : List RawMedia :=
  [⟨some "photo", some "https://pbs.twimg.com/media/sample1.jpg", none⟩,
   ⟨some "photo", some "https://pbs.twimg.com/media/sample2.jpg", none⟩,
   ⟨some "video", none, some "https://video.twimg.com/ext_tw_video/sample.mp4"⟩]

/-- The `sample_bird_response` fixture of `tests/conftest.py`. -/
def sampleBirdResponse : RawData :=
  { id := some "2011738838767423983"
    text := some "This is a sample tweet with some content."
    full_text := none
    createdAt := some "Wed Jan 15 10:30:00 +0000 2026"
    created_at := none
    author := some ⟨none, some "bozhou_ai", none, some "Bo Zhou", none⟩
    media := some sampleMedia
    conversationId := some "2011738838767423983"
    legacy := none }

/-- The `sample_bird_response_no_media` fixture of `tests/conftest.py`
(empty media list). -/
def sampleBirdResponseNoMedia : RawData :=
  { id := some "999888777666"
    text := some "A text-only tweet without any media."
    full_text := none
    createdAt := some "Mon Jan 20 15:00:00 +0000 2026"
    created_at := none
    author := some ⟨none, some "testuser", none, some "Test User", none⟩
    media := some []
    conversationId := none
    legacy := none }

/-- A raw response whose nonempty `createdAt` parses with neither date
format, forcing the wall-clock fallback. -/
def exBadDateRaw : RawData :=
  { id := some "123"
    text := some "hello"
    full_text := none
    createdAt := some "not a date"
    created_at := none
    author := none
    media := none
    conversationId := none
    legacy := none }

def exSuccessWorld : AttemptWorld :=
  ⟨true, .completed 0 (some sampleBirdResponse) "" "", .completed 0, exNow⟩

def exTimeoutWorld : AttemptWorld := ⟨true, .timedOut, .completed 0, exNow⟩

def exAuthWorld : AttemptWorld :=
  ⟨true, .completed 1 none "" "401 Unauthorized", .completed 0, exNow⟩

def exRateWorld : AttemptWorld :=
  ⟨true, .completed 1 none "" "429 Too Many Requests", .completed 0, exNow⟩

def ex404World : AttemptWorld :=
  ⟨true, .completed 1 none "" "HTTP 404 Not Found", .completed 0, exNow⟩

def ex404RefreshMissingWorld : AttemptWorld :=
  ⟨true, .completed 1 none "" "HTTP 404 Not Found", .fileNotFound, exNow⟩

/-- A zero-exit invocation whose stdout is not valid JSON. -/
def exMalformedWorld : AttemptWorld :=
  ⟨true, .completed 0 none "Expecting value: line 1 column 1 (char 0)" "",
    .completed 0, exNow⟩

/-- A nonzero-exit invocation whose stderr matches no classification rule
(mirroring the generic-error test in `tests/test_bird_client.py`). -/
def exUnclassifiedWorld : AttemptWorld :=
  ⟨true, .completed 1 none "" "Something went wrong", .completed 0, exNow⟩

/-! ### Validity of parsed dates -/

theorem mkDateTime_valid {y m d hh mi ss us : Nat} {off : Option Int}
    {dt : PyDateTime} (h : mkDateTime y m d hh mi ss us off = some dt) :
    validDateTime dt = true := by
  simp only [mkDateTime] at h
  split at h
  · cases h; assumption
  · cases h

theorem parseTwitterFormat_valid {s : String} {dt : PyDateTime}
    (h : parseTwitterFormat s = some dt) : validDateTime dt = true := by
  unfold parseTwitterFormat at h
  repeat split at h
  all_goals first
    | exact mkDateTime_valid h
    | cases h

theorem fromIsoTail_valid {y m d : Nat} {rest : List Char} {dt : PyDateTime}
    (h : fromIsoTail y m d rest = some dt) : validDateTime dt = true := by
  cases rest with
  | nil => exact mkDateTime_valid h
  | cons sep timePart =>
    simp only [fromIsoTail] at h
    split at h
    · exact Option.noConfusion h
    · split at h
      · exact Option.noConfusion h
      · exact mkDateTime_valid h

theorem fromIsoFormat_valid {s : String} {dt : PyDateTime}
    (h : fromIsoFormat s = some dt) : validDateTime dt = true := by
  unfold fromIsoFormat at h
  split at h
  · cases h
  · exact fromIsoTail_valid h

/-! ### C2 — failure-classification precedence -/

/-- C2: for every tool invocation that exits nonzero, `_run_bird` raises
the exception of the kind classified from stderr by substring rules in
fixed precedence with first match winning: 401 / Unauthorized /
case-insensitive auth → AuthExpired; else 429 / case-insensitive rate →
RateLimited; else 404 → NotFoundOrStale; else Unclassified. In
particular "401 Unauthorized" classifies as AuthExpired, also when the
stderr contains "404" as well. -/
theorem c2_failure_classification_precedence (returncode : Int)
    (stdoutJson : Option RawData) (stdoutDecodeError stderr : String)
    (hrc : returncode ≠ 0) :
    run_bird (.completed returncode stdoutJson stdoutDecodeError stderr) =
      .error (birdExcOfKind (classifyStderr (pyStrip stderr)) (pyStrip stderr))
    ∧ (∀ s : String,
        classifyStderr s =
          if strHasSub s "401" || strHasSub s "Unauthorized"
              || strHasSub (lowerStr s) "auth" then .AuthExpired
          else if strHasSub s "429" || strHasSub (lowerStr s) "rate" then
            .RateLimited
          else if strHasSub s "404" then .NotFoundOrStale
          else .Unclassified)
    ∧ classifyStderr "401 Unauthorized" = .AuthExpired
    ∧ classifyStderr "401 Unauthorized 404" = .AuthExpired := by
  refine ⟨by simp [run_bird, hrc], fun s => rfl, by decide, by decide⟩

/-- Witness for C2: a concrete nonzero exit whose stderr holds both the
auth markers and "404". -/
theorem c2_failure_classification_precedence_witness :
    run_bird (.completed 1 none "" "401 Unauthorized 404") =
      .error (birdExcOfKind (classifyStderr (pyStrip "401 Unauthorized 404"))
        (pyStrip "401 Unauthorized 404"))
    ∧ classifyStderr "401 Unauthorized 404" = .AuthExpired :=
  ⟨(c2_failure_classification_precedence 1 none "" "401 Unauthorized 404"
      (by decide)).1,
   (c2_failure_classification_precedence 1 none "" "401 Unauthorized 404"
      (by decide)).2.2.2⟩

/-! ### C6 — date parsing fallback chain -/

/-- C6: date parsing first attempts the tool's native textual format,
on failure attempts ISO-8601 with the literal Z replaced by +00:00, and
on failure of both returns the wall clock; it never raises and always
returns a valid timestamp. "Wed Jan 08 20:25:00 +0000 2026" parses to
year 2026, month 1, day 8, and "2026-01-15T10:30:00Z" to 2026-01-15. -/
theorem c6_date_parsing_fallback_chain (now : PyDateTime) (s : String)
    (hnow : validDateTime now = true) :
    validDateTime (parse_twitter_date now s) = true
    ∧ (∀ dt, parseTwitterFormat s = some dt → parse_twitter_date now s = dt)
    ∧ (parseTwitterFormat s = none →
        ∀ dt, fromIsoFormat (strReplace s "Z" "+00:00") = some dt →
          parse_twitter_date now s = dt)
    ∧ (parseTwitterFormat s = none →
        fromIsoFormat (strReplace s "Z" "+00:00") = none →
          parse_twitter_date now s = now)
    ∧ parse_twitter_date now "Wed Jan 08 20:25:00 +0000 2026" =
        ⟨2026, 1, 8, 20, 25, 0, 0, some 0⟩
    ∧ parse_twitter_date now "2026-01-15T10:30:00Z" =
        ⟨2026, 1, 15, 10, 30, 0, 0, some 0⟩ := by
  have hw : parseTwitterFormat "Wed Jan 08 20:25:00 +0000 2026" =
      some ⟨2026, 1, 8, 20, 25, 0, 0, some 0⟩ := by decide
  have hz1 : parseTwitterFormat "2026-01-15T10:30:00Z" = none := by decide
  have hz2 : fromIsoFormat (strReplace "2026-01-15T10:30:00Z" "Z" "+00:00") =
      some ⟨2026, 1, 15, 10, 30, 0, 0, some 0⟩ := by decide
  refine ⟨?_, ?_, ?_, ?_, ?_, ?_⟩
  · unfold parse_twitter_date
    split
    · exact parseTwitterFormat_valid ‹_›
    · split
      · exact fromIsoFormat_valid ‹_›
      · exact hnow
  · intro dt h; simp [parse_twitter_date, h]
  · intro h1 dt h2; simp [parse_twitter_date, h1, h2]
  · intro h1 h2; simp [parse_twitter_date, h1, h2]
  · simp [parse_twitter_date, hw]
  · simp [parse_twitter_date, hz1, hz2]

/-- Witness for C6 at a concrete valid wall clock and an unparseable
string. -/
theorem c6_date_parsing_fallback_chain_witness :
    validDateTime (parse_twitter_date exNow "not a date") = true
    ∧ parse_twitter_date exNow "Wed Jan 08 20:25:00 +0000 2026" =
        ⟨2026, 1, 8, 20, 25, 0, 0, some 0⟩ :=
  ⟨(c6_date_parsing_fallback_chain exNow "not a date" (by decide)).1,
   (c6_date_parsing_fallback_chain exNow "not a date" (by decide)).2.2.2.2.1⟩

/-! ### C8 — thread-flag invariant -/

/-- C8: the normalized record's thread flag is true iff its conversation
identifier — top-level `conversationId`, else the nested
`legacy.conversation_id_str` — is present and differs from the record's
own identifier. -/
theorem c8_thread_flag_iff (now : PyDateTime) (raw_data : RawData)
    (url : String) :
    ((parse_bird_response now raw_data url).is_thread = true ↔
      ((parse_bird_response now raw_data url).conversation_id ≠ none ∧
       (parse_bird_response now raw_data url).conversation_id ≠
         some (parse_bird_response now raw_data url).id))
    ∧ (parse_bird_response now raw_data url).conversation_id =
        pyOrOpt raw_data.conversationId
          (raw_data.legacy.bind (·.conversation_id_str))
    ∧ (parse_bird_response now raw_data url).id = raw_data.id.getD "" := by
  refine ⟨?_, rfl, rfl⟩
  simp only [parse_bird_response]
  cases h : pyOrOpt raw_data.conversationId
      (raw_data.legacy.bind (·.conversation_id_str)) with
  | none => simp [h]
  | some c => simp [h, bne_iff_ne]

/-- Witness for C8 on the sample fixture (conversation id equal to the
tweet id, so the flag is false). -/
theorem c8_thread_flag_iff_witness :
    (((parse_bird_response exNow sampleBirdResponse
        "https://x.com/bozhou_ai/status/2011738838767423983").is_thread = true ↔
      ((parse_bird_response exNow sampleBirdResponse
        "https://x.com/bozhou_ai/status/2011738838767423983").conversation_id ≠ none ∧
       (parse_bird_response exNow sampleBirdResponse
        "https://x.com/bozhou_ai/status/2011738838767423983").conversation_id ≠
         some (parse_bird_response exNow sampleBirdResponse
          "https://x.com/bozhou_ai/status/2011738838767423983").id))) ∧
    (parse_bird_response exNow sampleBirdResponse
      "https://x.com/bozhou_ai/status/2011738838767423983").is_thread = false :=
  ⟨(c8_thread_flag_iff exNow sampleBirdResponse
      "https://x.com/bozhou_ai/status/2011738838767423983").1, by decide⟩

/-! ### C10 — missing-URL early return -/

/-- C10: an input whose url field is absent or empty returns a failure
result with success false, url "" and error "No URL provided", without
constructing the Bird client and without any subprocess call. -/
theorem c10_no_url_early_return (data : JobInput) (w : AttemptWorld)
    (h : data.url = none ∨ data.url = some "") :
    scrapeAttempt data w =
      ⟨.result ⟨false, "", none, some "No URL provided"⟩, false, 0⟩ := by
  rcases h with h | h <;> simp [scrapeAttempt, h]

/-- Witness for C10 at both an absent and an empty url field. -/
theorem c10_no_url_early_return_witness :
    scrapeAttempt ⟨none⟩ exSuccessWorld =
      ⟨.result ⟨false, "", none, some "No URL provided"⟩, false, 0⟩
    ∧ scrapeAttempt ⟨some ""⟩ exSuccessWorld =
      ⟨.result ⟨false, "", none, some "No URL provided"⟩, false, 0⟩ :=
  ⟨c10_no_url_early_return ⟨none⟩ exSuccessWorld (Or.inl rfl),
   c10_no_url_early_return ⟨some ""⟩ exSuccessWorld (Or.inr rfl)⟩

/-! ### C9 — image extraction -/

theorem extractImagesGo_eq (ms : List RawMedia) :
    extractImagesGo ms =
      (ms.filter imageKeep).map (fun m => canonImageUrl (m.url.getD "")) := by
  induction ms with
  | nil => rfl
  | cons m ms ih =>
    simp only [extractImagesGo, imageKeep, List.filter_cons]
    by_cases h1 : m.type == some "photo"
    · by_cases h2 : m.url.getD "" ≠ ""
      · by_cases h3 : strHasSub (m.url.getD "") "twimg.com"
        · simp [h1, h2, h3, ih]
        · simp [h1, h2, h3, ih]
      · simp only [ne_eq, not_not] at h2
        simp [h1, h2, ih]
    · simp [h1, ih]

/-- C9: image extraction returns, in input order, one URL per media item
of type photo whose URL contains the image host marker, each rewritten by
the canonicalization rule (strip the query string and append
`format=jpg&name=orig` unless the query-stripped URL already ends in the
`:orig` original-size marker); the two-photo fixture yields exactly its
two canonical URLs, each containing the original-size marker, and an
empty media list yields the empty list. -/
theorem c9_image_extraction (raw_data : RawData) :
    extract_image_urls raw_data =
      ((raw_data.media.getD []).filter imageKeep).map
        (fun m => canonImageUrl (m.url.getD ""))
    ∧ extract_image_urls sampleBirdResponse =
        ["https://pbs.twimg.com/media/sample1.jpg?format=jpg&name=orig",
         "https://pbs.twimg.com/media/sample2.jpg?format=jpg&name=orig"]
    ∧ ((extract_image_urls sampleBirdResponse).all
        (fun u => strHasSub u "twimg.com" && strHasSub u "name=orig")) = true
    ∧ extract_image_urls sampleBirdResponseNoMedia = [] :=
  ⟨extractImagesGo_eq _, by decide, by decide, by decide⟩

/-- Witness for C9 on the two-photo fixture. -/
theorem c9_image_extraction_witness :
    extract_image_urls sampleBirdResponse =
      ((sampleBirdResponse.media.getD []).filter imageKeep).map
        (fun m => canonImageUrl (m.url.getD ""))
    ∧ extract_image_urls sampleBirdResponseNoMedia = [] :=
  ⟨(c9_image_extraction sampleBirdResponse).1,
   (c9_image_extraction sampleBirdResponse).2.2.2⟩

/-! ### C1 — order preservation of the batch -/

theorem batchStep_length {α β : Type} (jobs : List α) (f : α → β)
    (slots : List (Option β)) (i : Nat) :
    (batchStep jobs f slots i).length = slots.length := by
  unfold batchStep
  cases h : jobs[i]? <;> simp

theorem foldl_batchStep_length {α β : Type} (jobs : List α) (f : α → β)
    (order : List Nat) (slots : List (Option β)) :
    (order.foldl (batchStep jobs f) slots).length = slots.length := by
  induction order generalizing slots with
  | nil => rfl
  | cons i rest ih =>
    rw [List.foldl_cons, ih, batchStep_length]

theorem foldl_batchStep_unwritten {α β : Type} (jobs : List α) (f : α → β)
    (order : List Nat) (slots : List (Option β)) (j : Nat) (hj : j ∉ order) :
    (order.foldl (batchStep jobs f) slots)[j]? = slots[j]? := by
  induction order generalizing slots with
  | nil => rfl
  | cons i rest ih =>
    have hji : i ≠ j := fun e => hj (e ▸ List.mem_cons_self i rest)
    have hjr : j ∉ rest := fun hm => hj (List.mem_cons_of_mem _ hm)
    rw [List.foldl_cons, ih _ hjr]
    unfold batchStep
    cases h : jobs[i]? with
    | none => rfl
    | some a => exact List.getElem?_set_ne hji

theorem foldl_batchStep_written {α β : Type} (jobs : List α) (f : α → β)
    (order : List Nat) (slots : List (Option β))
    (hlen : slots.length = jobs.length) (j : Nat) (a : α)
    (hja : jobs[j]? = some a) (hj : j ∈ order) :
    (order.foldl (batchStep jobs f) slots)[j]? = some (some (f a)) := by
  induction order generalizing slots with
  | nil => cases hj
  | cons i rest ih =>
    rw [List.foldl_cons]
    by_cases hjr : j ∈ rest
    · exact ih _ (by rw [batchStep_length, hlen]) hjr
    · have hji : j = i := by
        rcases List.mem_cons.mp hj with h | h
        · exact h
        · exact absurd h hjr
      subst hji
      rw [foldl_batchStep_unwritten _ _ _ _ _ hjr]
      unfold batchStep
      rw [hja]
      have hlt : j < slots.length := by
        rw [hlen]
        exact (List.getElem?_eq_some.mp hja).1
      exact List.getElem?_set_self hlt

/-- Whenever every input index occurs among the completion events, the
assembled result is the by-index map of the job function, independent of
the completion order. -/
theorem runBatch_eq_map {α β : Type} (jobs : List α) (f : α → β)
    (order : List Nat) (hord : ∀ i, i < jobs.length → i ∈ order) :
    runBatch jobs f order = jobs.map (fun a => some (f a)) := by
  apply List.ext_getElem?
  intro j
  by_cases hj : j < jobs.length
  · have hja : jobs[j]? = some jobs[j] := List.getElem?_eq_some.mpr ⟨hj, rfl⟩
    rw [runBatch,
      foldl_batchStep_written jobs f order _ (by simp) j jobs[j] hja (hord j hj)]
    rw [List.getElem?_map, hja]
    rfl
  · have h1 : (runBatch jobs f order).length ≤ j := by
      rw [runBatch, foldl_batchStep_length, List.length_replicate]
      omega
    rw [List.getElem?_eq_none h1, List.getElem?_eq_none (by simp; omega)]

/-- C1: for every ordered input list, the batch result has exactly one
outcome per input and the outcome in slot i is the outcome of input i's
own job, for every completion order that contains all input indices —
so concurrent completion order is irrelevant to the result. -/
theorem c1_batch_order_preservation (maxAttempts : Nat)
    (inputs : List (String × List AttemptWorld)) (order : List Nat)
    (hord : ∀ i, i < inputs.length → i ∈ order) :
    scrape_urls maxAttempts inputs order =
      inputs.map (fun p => some (scrapeJob maxAttempts ⟨some p.1⟩ p.2))
    ∧ (scrape_urls maxAttempts inputs order).length = inputs.length
    ∧ ∀ i, (h : i < inputs.length) →
        (scrape_urls maxAttempts inputs order)[i]? =
          some (some (scrapeJob maxAttempts ⟨some inputs[i].1⟩ inputs[i].2)) := by
  have hmain : scrape_urls maxAttempts inputs order =
      inputs.map (fun p => some (scrapeJob maxAttempts ⟨some p.1⟩ p.2)) :=
    runBatch_eq_map inputs _ order hord
  refine ⟨hmain, by rw [hmain, List.length_map], ?_⟩
  intro i h
  rw [hmain, List.getElem?_map,
    List.getElem?_eq_some.mpr ⟨h, rfl⟩]
  rfl

/-- Witness for C1: two inputs completing in reversed order still produce
the by-index results. -/
theorem c1_batch_order_preservation_witness :
    scrape_urls 1 [("https://x.com/a/status/1", [exTimeoutWorld]), ("", [])]
        [1, 0] =
      [("https://x.com/a/status/1", [exTimeoutWorld]), ("", [])].map
        (fun p => some (scrapeJob 1 ⟨some p.1⟩ p.2)) :=
  (c1_batch_order_preservation 1
    [("https://x.com/a/status/1", [exTimeoutWorld]), ("", [])] [1, 0]
    (by
      intro i hi
      simp only [List.length_cons, List.length_nil] at hi
      interval_cases i <;> decide)).1

/-! ### C4 — AuthExpired is never retried -/

/-- C4: a first attempt classified AuthExpired makes the job emit a
failure immediately with exactly one attempt consumed, for every
`maxAttempts` — the auth error message matches neither of the re-raise
markers "404" / "query", so the `except BirdError` arm returns a result
and the retry loop never re-invokes the tool. -/
theorem c4_auth_expired_no_retry (maxAttempts : Nat) (data : JobInput)
    (w : AttemptWorld) (ws : List AttemptWorld) (rc : Int)
    (sj : Option RawData) (de s : String)
    (hurl : data.url.getD "" ≠ "") (hbird : w.birdOnPath = true)
    (hw : w.readInv = .completed rc sj de s) (hrc : rc ≠ 0)
    (hcls : classifyStderr (pyStrip s) = .AuthExpired) :
    scrapeJob maxAttempts data (w :: ws) =
      ⟨⟨false, normalize_x_url (data.url.getD ""), none, some authExpiredMsg⟩,
        1⟩ := by
  have h404 : strHasSub authExpiredMsg "404" = false := by decide
  have hq : strHasSub (lowerStr authExpiredMsg) "query" = false := by decide
  unfold scrapeJob scrapeJobGo scrapeAttempt
  simp [hurl, hbird, hw, run_bird, hrc, hcls, birdExcOfKind, h404, hq]

/-- Witness for C4: an auth failure on the first of five allowed attempts
still finishes with one attempt. -/
theorem c4_auth_expired_no_retry_witness :
    scrapeJob 5 ⟨some "https://x.com/user/status/1"⟩
        [exAuthWorld, exTimeoutWorld] =
      ⟨⟨false, normalize_x_url "https://x.com/user/status/1", none,
        some authExpiredMsg⟩, 1⟩ :=
  c4_auth_expired_no_retry 5 ⟨some "https://x.com/user/status/1"⟩
    exAuthWorld [exTimeoutWorld] 1 none "" "401 Unauthorized"
    (by decide) rfl rfl (by decide) (by decide)

/-! ### C3 — retry policy (corrected) -/

/-- C3 counterexample: a Timeout-classified failure on the first attempt
with `maxAttempts = 5` terminates the job failed after exactly one
invocation instead of retrying — the following attempt environment would
have succeeded, yet is never consumed. -/
theorem c3_retry_policy_counterexample :
    scrapeJob 5 ⟨some "https://x.com/user/status/1"⟩
        [exTimeoutWorld, exSuccessWorld] =
      ⟨⟨false, "https://x.com/user/status/1", none,
        some "Bird command timed out after 60s"⟩, 1⟩ := by decide

/-- C3 amended: while attempts remain, only a rate-limit failure
re-raises into a retry; a timeout, a JSON decode failure (malformed
output) and an unclassified failure whose message carries no "404" /
"query" marker all return a failure result on that same attempt, so the
job terminates with exactly one invocation consumed. -/
theorem c3_retry_policy_amended (maxAttempts : Nat) (data : JobInput)
    (hurl : data.url.getD "" ≠ "") :
    (∀ (w : AttemptWorld) (ws : List AttemptWorld) (rc : Int)
        (sj : Option RawData) (de s : String),
        w.birdOnPath = true → w.readInv = .completed rc sj de s → rc ≠ 0 →
        classifyStderr (pyStrip s) = .RateLimited → 1 < maxAttempts →
        scrapeJob maxAttempts data (w :: ws) =
          scrapeJobGo data maxAttempts ws 1)
    ∧ (∀ (w : AttemptWorld) (ws : List AttemptWorld),
        w.birdOnPath = true → w.readInv = .timedOut →
        scrapeJob maxAttempts data (w :: ws) =
          ⟨⟨false, normalize_x_url (data.url.getD ""), none,
            some s!"Bird command timed out after {birdTimeout}s"⟩, 1⟩)
    ∧ (∀ (w : AttemptWorld) (ws : List AttemptWorld) (de s : String),
        w.birdOnPath = true → w.readInv = .completed 0 none de s →
        strHasSub s!"Failed to parse Bird output as JSON: {de}" "404" = false →
        strHasSub (lowerStr s!"Failed to parse Bird output as JSON: {de}")
          "query" = false →
        scrapeJob maxAttempts data (w :: ws) =
          ⟨⟨false, normalize_x_url (data.url.getD ""), none,
            some s!"Failed to parse Bird output as JSON: {de}"⟩, 1⟩)
    ∧ (∀ (w : AttemptWorld) (ws : List AttemptWorld) (rc : Int)
        (sj : Option RawData) (de s : String),
        w.birdOnPath = true → w.readInv = .completed rc sj de s → rc ≠ 0 →
        classifyStderr (pyStrip s) = .Unclassified →
        strHasSub s!"Bird CLI failed: {pyStrip s}" "404" = false →
        strHasSub (lowerStr s!"Bird CLI failed: {pyStrip s}") "query" = false →
        scrapeJob maxAttempts data (w :: ws) =
          ⟨⟨false, normalize_x_url (data.url.getD ""), none,
            some s!"Bird CLI failed: {pyStrip s}"⟩, 1⟩) := by
  refine ⟨?_, ?_, ?_, ?_⟩
  · intro w ws rc sj de s hbird hw hrc hcls hlt
    have hstep : (scrapeAttempt data w).outcome =
        .raised ⟨.rateLimitErr, rateLimitedMsg⟩ := by
      unfold scrapeAttempt
      simp [hurl, hbird, hw, run_bird, hrc, hcls, birdExcOfKind]
    simp only [scrapeJob, scrapeJobGo, hstep]
    simp [hlt]
  · intro w ws hbird hw
    have h404 : strHasSub s!"Bird command timed out after {birdTimeout}s"
        "404" = false := by decide
    have hq : strHasSub (lowerStr s!"Bird command timed out after {birdTimeout}s")
        "query" = false := by decide
    unfold scrapeJob scrapeJobGo scrapeAttempt
    simp [hurl, hbird, hw, run_bird, h404, hq]
  · intro w ws de s hbird hw h404 hq
    unfold scrapeJob scrapeJobGo scrapeAttempt
    simp [hurl, hbird, hw, run_bird, h404, hq]
  · intro w ws rc sj de s hbird hw hrc hcls h404 hq
    unfold scrapeJob scrapeJobGo scrapeAttempt
    simp [hurl, hbird, hw, run_bird, hrc, hcls, birdExcOfKind, h404, hq]

/-- Witness for C3 amended: a rate-limited first attempt re-enters the
loop, while timeout, malformed-output and unclassified first attempts all
finish failed with one attempt. -/
theorem c3_retry_policy_amended_witness :
    scrapeJob 2 ⟨some "https://x.com/user/status/1"⟩
        [exRateWorld, exTimeoutWorld] =
      scrapeJobGo ⟨some "https://x.com/user/status/1"⟩ 2 [exTimeoutWorld] 1
    ∧ scrapeJob 5 ⟨some "https://x.com/user/status/1"⟩ [exTimeoutWorld] =
        ⟨⟨false, normalize_x_url "https://x.com/user/status/1", none,
          some s!"Bird command timed out after {birdTimeout}s"⟩, 1⟩
    ∧ scrapeJob 5 ⟨some "https://x.com/user/status/1"⟩ [exMalformedWorld] =
        ⟨⟨false, normalize_x_url "https://x.com/user/status/1", none,
          some "Failed to parse Bird output as JSON: Expecting value: line 1 column 1 (char 0)"⟩,
          1⟩
    ∧ scrapeJob 5 ⟨some "https://x.com/user/status/1"⟩ [exUnclassifiedWorld] =
        ⟨⟨false, normalize_x_url "https://x.com/user/status/1", none,
          some "Bird CLI failed: Something went wrong"⟩, 1⟩ :=
  ⟨(c3_retry_policy_amended 2 ⟨some "https://x.com/user/status/1"⟩
      (by decide)).1 exRateWorld [exTimeoutWorld] 1 none ""
      "429 Too Many Requests" rfl rfl (by decide) (by decide) (by decide),
   (c3_retry_policy_amended 5 ⟨some "https://x.com/user/status/1"⟩
      (by decide)).2.1 exTimeoutWorld [] rfl rfl,
   Eq.trans
     ((c3_retry_policy_amended 5 ⟨some "https://x.com/user/status/1"⟩
        (by decide)).2.2.1 exMalformedWorld []
        "Expecting value: line 1 column 1 (char 0)" "" rfl rfl
        (by decide) (by decide))
     (by decide),
   Eq.trans
     ((c3_retry_policy_amended 5 ⟨some "https://x.com/user/status/1"⟩
        (by decide)).2.2.2 exUnclassifiedWorld [] 1 none ""
        "Something went wrong" rfl rfl (by decide) (by decide)
        (by decide) (by decide))
     (by decide)⟩

/-! ### C5 — refresh side action (corrected) -/

/-- C5 counterexample: when the executable disappears before the refresh,
`refresh_query_ids` re-raises `BirdNotFoundError` instead of swallowing
it — the refresh failure escalates out of the refresh call, replaces the
pending exception of the triggering job, and becomes that job's failure
message once the budget is exhausted. -/
theorem c5_refresh_counterexample :
    refresh_query_ids .fileNotFound =
      .error ⟨.birdNotFoundErr, birdNotFoundMsg⟩
    ∧ (scrapeAttempt ⟨some "https://x.com/user/status/1"⟩
        ex404RefreshMissingWorld).outcome =
        .raised ⟨.birdNotFoundErr, birdNotFoundMsg⟩
    ∧ scrapeJob 1 ⟨some "https://x.com/user/status/1"⟩
        [ex404RefreshMissingWorld] =
        ⟨⟨false, "https://x.com/user/status/1", none, some birdNotFoundMsg⟩,
          1⟩ :=
  ⟨rfl, by decide, by decide⟩

/-- C5 amended: a NotFoundOrStale-classified failure invokes the one-shot
refresh before re-raising for the retry, and the refresh's own timeout is
swallowed (logged) while a completed refresh run is ignored whatever its
exit code — but a missing executable during the refresh raises, so that
case is excluded. -/
theorem c5_refresh_amended (data : JobInput) (hurl : data.url.getD "" ≠ "") :
    (∀ rc : Int, refresh_query_ids (.completed rc) = .ok ())
    ∧ refresh_query_ids .timedOut = .ok ()
    ∧ (∀ (w : AttemptWorld) (rc : Int) (sj : Option RawData) (de s : String),
        w.birdOnPath = true → w.readInv = .completed rc sj de s → rc ≠ 0 →
        classifyStderr (pyStrip s) = .NotFoundOrStale →
        w.refreshInv ≠ .fileNotFound →
        scrapeAttempt data w =
          ⟨.raised ⟨.plainErr, notFoundStaleMsg⟩, true, 2⟩) := by
  refine ⟨fun rc => rfl, rfl, ?_⟩
  intro w rc sj de s hbird hw hrc hcls hrefresh
  have hok : refresh_query_ids w.refreshInv = .ok () := by
    cases h : w.refreshInv with
    | completed rc2 => rfl
    | timedOut => rfl
    | fileNotFound => exact absurd h hrefresh
  have hq : strHasSub (lowerStr notFoundStaleMsg) "query" = true := by decide
  unfold scrapeAttempt
  simp [hurl, hbird, hw, run_bird, hrc, hcls, birdExcOfKind, hq, hok]

/-- Witness for C5 amended: a 404-classified attempt whose refresh
completes runs the refresh (two subprocess calls) and re-raises the
original error. -/
theorem c5_refresh_amended_witness :
    refresh_query_ids (.completed 0) = .ok ()
    ∧ refresh_query_ids .timedOut = .ok ()
    ∧ scrapeAttempt ⟨some "https://x.com/user/status/1"⟩ ex404World =
        ⟨.raised ⟨.plainErr, notFoundStaleMsg⟩, true, 2⟩ :=
  ⟨(c5_refresh_amended ⟨some "https://x.com/user/status/1"⟩ (by decide)).1 0,
   (c5_refresh_amended ⟨some "https://x.com/user/status/1"⟩ (by decide)).2.1,
   (c5_refresh_amended ⟨some "https://x.com/user/status/1"⟩ (by decide)).2.2
     ex404World 1 none "" "HTTP 404 Not Found" rfl rfl (by decide)
     (by decide) (by decide)⟩

/-! ### C7 — normalization idempotence (corrected) -/

theorem parse_twitter_date_wallclock_indep {c : String}
    (h : parseTwitterFormat c ≠ none ∨
         fromIsoFormat (strReplace c "Z" "+00:00") ≠ none)
    (n1 n2 : PyDateTime) :
    parse_twitter_date n1 c = parse_twitter_date n2 c := by
  rcases h1 : parseTwitterFormat c with _ | dt
  · rcases h2 : fromIsoFormat (strReplace c "Z" "+00:00") with _ | dt
    · rcases h with h | h
      · exact absurd h1 h
      · exact absurd h2 h
    · simp [parse_twitter_date, h1, h2]
  · simp [parse_twitter_date, h1]

theorem createdAtOf_wallclock_indep {raw_data : RawData}
    (n1 n2 : PyDateTime)
    (h : createdAtRawOf raw_data = "" ∨
         parseTwitterFormat (createdAtRawOf raw_data) ≠ none ∨
         fromIsoFormat (strReplace (createdAtRawOf raw_data) "Z" "+00:00") ≠
           none) :
    createdAtOf n1 raw_data = createdAtOf n2 raw_data := by
  unfold createdAtOf
  by_cases he : createdAtRawOf raw_data = ""
  · simp [he]
  · have h' : parseTwitterFormat (createdAtRawOf raw_data) ≠ none ∨
        fromIsoFormat (strReplace (createdAtRawOf raw_data) "Z" "+00:00") ≠
          none := by
      rcases h with h | h | h
      · exact absurd h he
      · exact Or.inl h
      · exact Or.inr h
    simp [he, parse_twitter_date_wallclock_indep h' n1 n2]

/-- C7 counterexample: a raw response with the nonempty unparseable
timestamp "not a date" normalizes to different records at two different
wall clocks — the fallback to the current time makes double normalization
yield non-identical records. -/
theorem c7_idempotence_counterexample :
    parse_bird_response exNow exBadDateRaw "https://x.com/a/status/123" ≠
      parse_bird_response exNow2 exBadDateRaw "https://x.com/a/status/123" := by
  decide

/-- C7 amended: normalization of the same raw JSON and URL is independent
of the wall clock — hence yields structurally identical records across
invocations — whenever the raw created-at string is empty or parsed by
one of the two date formats; only the unparseable-nonempty-date fallback
breaks idempotence. -/
theorem c7_normalization_idempotent_amended (raw_data : RawData)
    (url : String) (now1 now2 : PyDateTime)
    (h : createdAtRawOf raw_data = "" ∨
         parseTwitterFormat (createdAtRawOf raw_data) ≠ none ∨
         fromIsoFormat (strReplace (createdAtRawOf raw_data) "Z" "+00:00") ≠
           none) :
    parse_bird_response now1 raw_data url =
      parse_bird_response now2 raw_data url := by
  unfold parse_bird_response
  rw [createdAtOf_wallclock_indep now1 now2 h]

/-- Witness for C7 amended on the sample fixture, whose created-at parses
in the native format. -/
theorem c7_normalization_idempotent_amended_witness :
    parse_bird_response exNow sampleBirdResponse
        "https://x.com/bozhou_ai/status/2011738838767423983" =
      parse_bird_response exNow2 sampleBirdResponse
        "https://x.com/bozhou_ai/status/2011738838767423983" :=
  c7_normalization_idempotent_amended sampleBirdResponse
    "https://x.com/bozhou_ai/status/2011738838767423983" exNow exNow2
    (Or.inr (Or.inl (by decide)))

end XScraper
